import Mathlib

/-!
# Secret-App: credential verification and session identity

A shallow embedding of `src/index.js`.  The `users` table is a list of rows,
`db.query` is a family of functions on that list which also record the query
they were asked to run, and every route handler is a function from the
database and the request context (`req.user`, the form fields) to the
database, the request context and the response it sends.

Conventions of the embedding.

* A JavaScript value that may be `undefined`, `null` or `false` is an `Option`.
* A thrown exception that the handler's own `try`/`catch` swallows with
  `console.log` ends the handler with no response sent (`response = none`).
* `bcrypt` is a pair of functions supplied by the caller: the digest it
  returns is salted and is not computed here.
* `passport`, `passport-local` and `express` are libraries; the parts of
  their behaviour the handlers rely on (how the verify callback's arguments
  become a response, which methods `req` has) are written out next to the
  handler that uses them.
* The database connection is taken to be available.  A statement fails in two
  ways only: an `INSERT` that violates the uniqueness of `email`, when the
  schema declares it, and a statement one of whose text parameters, taken
  from the request body, contains the character U+0000, which PostgreSQL
  does not store in text.  The values the program obtained from the
  database itself (`req.user`), from `bcrypt` (the digest) or from the
  provider (`profile.email`) are text the database accepts.
-/

namespace SecretApp

/-! ## Data model -/

/-- One row of the table `users(email, password, secret)`.  `secret` is
`none` for SQL `NULL`, the value an `INSERT` that names only `email` and
`password` leaves there. -/
structure Row where
  email : String
  password : String
  secret : Option String
deriving DecidableEq, Repr

/-- The contents of the table `users`. -/
abbrev Store := List Row

/-- The four statements the program sends through `db.query`. -/
inductive Query where
  /-- The statement `SELECT * FROM users WHERE email = $1`. -/
  | selectUser (email : String)
  /-- The statement `SELECT secret FROM users WHERE email = $1`. -/
  | selectSecret (email : String)
  /-- The statement `INSERT INTO users (email, password) VALUES ($1, $2)`,
  with or without `RETURNING *`. -/
  | insertUser (email password : String) (returning : Bool)
  /-- The statement `UPDATE users SET secret = $1 WHERE email = $2`. -/
  | updateSecret (secret : Option String) (email : String)
deriving DecidableEq, Repr

/-- The database behind the shared client `db`: the rows of `users`, the
statements issued so far (oldest first), and whether the schema, which is not
part of the source file, declares `email` unique. -/
structure Db where
  rows : Store
  log : List Query
  uniqueEmail : Bool
deriving DecidableEq, Repr

/-- What a handler has sent on `res`, or handed to `next`. -/
inductive Response where
  /-- The call `res.render(view, \x7b secret \x7d)`; `secret` is `none` when
  the view is rendered without locals. -/
  | render (view : String) (secret : Option String)
  /-- The call `res.redirect(path)`. -/
  | redirect (path : String)
  /-- The call `next(err)`: the error goes to the error handler of express. -/
  | nextError (err : String)
deriving DecidableEq, Repr

/-- The state a request leaves behind: the database, `req.user` (the identity
the session is bound to, if any) and the response, `none` when the handler
ended without sending one. -/
structure Outcome where
  db : Db
  user : Option Row
  response : Option Response
deriving DecidableEq, Repr

/-- The arguments a passport verify function hands to its callback `cb`. -/
inductive CbArgs where
  /-- The call `cb(err)`. -/
  | err (e : String)
  /-- The call `cb(null, user)`; `none` stands for a `user` that is `false`
  or `undefined`. -/
  | user (u : Option Row)
  /-- The verify function ended without calling `cb`: its `catch` logged an
  exception. -/
  | notCalled
deriving DecidableEq, Repr

/-- The two entry points of `bcrypt` the program calls; `Except.error` is the
`err` argument of their callbacks. -/
structure Bcrypt where
  hash : String → Nat → Except String String
  compare : String → String → Except String Bool

/-- The constant `saltRounds`. -/
def saltRounds : Nat := 10

/-! ## The database client -/

/-- Rows whose `email` equals the parameter, in table order. -/
def rowsFor (rows : Store) (email : String) : List Row :=
  rows.filter (fun r => decide (r.email = email))

/-- Whether PostgreSQL accepts the string as a text parameter: it answers
`invalid byte sequence for encoding "UTF8": 0x00` to one that contains the
character U+0000. -/
def acceptsText (s : String) : Bool :=
  s.toList.all (fun c => decide (c ≠ Char.ofNat 0))

/-- A statement the server rejected: it is recorded, the table is unchanged,
and `db.query` throws. -/
def Db.rejected (d : Db) (q : Query) : Db :=
  { d with log := d.log ++ [q] }

/-- The call `db.query("SELECT * FROM users WHERE email = $1", [email])`: the matching
rows, and the database with the statement recorded. -/
def Db.selectUser (d : Db) (email : String) : List Row × Db :=
  (rowsFor d.rows email, { d with log := d.log ++ [Query.selectUser email] })

/-- The call `db.query("SELECT secret FROM users WHERE email = $1", [email])`: the
`secret` column of the matching rows. -/
def Db.selectSecret (d : Db) (email : String) : List (Option String) × Db :=
  ((rowsFor d.rows email).map (fun r => r.secret),
    { d with log := d.log ++ [Query.selectSecret email] })

/-- The call `db.query("INSERT INTO users (email, password) VALUES ($1, $2) ...")`.
The new row goes to the end of the table with `secret` left `NULL`.  The
result rows are the new row when the statement ends in `RETURNING *` and
empty otherwise.  When the schema declares `email` unique and a row with that
email is stored, the statement fails and the table is unchanged. -/
def Db.insertUser (d : Db) (email password : String) (returning : Bool) :
    Except String (List Row) × Db :=
  let d1 : Db := { d with log := d.log ++ [Query.insertUser email password returning] }
  if d.uniqueEmail = true ∧ rowsFor d.rows email ≠ [] then
    (Except.error "duplicate key value violates unique constraint", d1)
  else
    let row : Row := { email := email, password := password, secret := none }
    (Except.ok (if returning then [row] else []), { d1 with rows := d.rows ++ [row] })

/-- The call
`db.query("UPDATE users SET secret = $1 WHERE email = $2", [secret, email])`. -/
def Db.updateSecret (d : Db) (secret : Option String) (email : String) : Db :=
  { d with
    rows := d.rows.map (fun r => if r.email = email then { r with secret := secret } else r)
    log := d.log ++ [Query.updateSecret secret email] }

/-! ## Session helpers supplied by passport -/

/-- The call `req.isAuthenticated()`: passport answers `true` exactly when `req.user`
is set. -/
def isAuthenticated (user : Option Row) : Bool := user.isSome

/-- The function given to `passport.serializeUser`: the whole row is stored in the session. -/
def serializeUser (user : Row) : Row := user

/-- The function given to `passport.deserializeUser`: the stored row is `req.user`. -/
def deserializeUser (stored : Row) : Row := stored

/-- The text shown when the user has no secret. -/
def placeholder : String := "You should submit a secret"

/-- The JavaScript expression `secret || dflt`: `dflt` when `secret` is
`null` or the empty string. -/
def orDefault (secret : Option String) (dflt : String) : String :=
  match secret with
  | some s => if s = "" then dflt else s
  | none => dflt

/-! ## Route handlers -/

/-- The handler of `app.get("/secrets")`. -/
def getSecrets (d : Db) (user : Option Row) : Outcome :=
  match user with
  | some u =>
    -- req.isAuthenticated() is true
    let (rows, d1) := d.selectSecret u.email
    match rows with
    | secret :: _ =>
      { db := d1, user := user,
        response := some (Response.render "secrets.ejs" (some (orDefault secret placeholder))) }
    | [] =>
      -- result.rows[0] is undefined: reading .secret throws, the catch logs
      { db := d1, user := user, response := none }
  | none => { db := d, user := user, response := some (Response.redirect "/login") }

/-- The handler of `app.get("/submit")`. -/
def getSubmit (d : Db) (user : Option Row) : Outcome :=
  if isAuthenticated user then
    { db := d, user := user, response := some (Response.render "submit.ejs" none) }
  else
    { db := d, user := user, response := some (Response.redirect "/login") }

/-- The handler of `app.post("/register")`, with `req.body.username` and
`req.body.password`. -/
def postRegister (b : Bcrypt) (d : Db) (user : Option Row) (email password : String) :
    Outcome :=
  if acceptsText email = false then
    -- the SELECT is rejected, db.query throws, the catch logs it
    { db := d.rejected (Query.selectUser email), user := user, response := none }
  else
    let (checkRows, d1) := d.selectUser email
    if checkRows.length > 0 then
      -- req.redirect("/login"): the request object of express has no method
      -- redirect, the call throws a TypeError, the catch logs it
      { db := d1, user := user, response := none }
    else
      match b.hash password saltRounds with
      | Except.error _ =>
        -- console.error("Error hashing password:", err)
        { db := d1, user := user, response := none }
      | Except.ok hash =>
        match d1.insertUser email hash true with
        | (Except.error _, d2) =>
          -- the rejection is raised inside the bcrypt callback: nothing is sent
          { db := d2, user := user, response := none }
        | (Except.ok rows, d2) =>
          match rows with
          | newUser :: _ =>
            -- req.login(user, ...) binds the session, then res.redirect("/secrets")
            { db := d2, user := some (deserializeUser (serializeUser newUser)),
              response := some (Response.redirect "/secrets") }
          | [] =>
            -- req.login(undefined, ...) fails to serialize; the callback ignores
            -- err and redirects
            { db := d2, user := user, response := some (Response.redirect "/secrets") }

/-- The handler of `app.post("/submit")`, with `req.body.secret`. -/
def postSubmit (d : Db) (user : Option Row) (submittedSecret : Option String) : Outcome :=
  match user with
  | none =>
    -- req.user is undefined: evaluating req.user.email throws inside the
    -- try block before db.query is called, the catch logs it
    { db := d, user := user, response := none }
  | some u =>
    if (submittedSecret.all acceptsText) = false then
      -- the UPDATE is rejected, db.query throws, the catch logs it
      { db := d.rejected (Query.updateSecret submittedSecret u.email), user := user,
        response := none }
    else
      { db := d.updateSecret submittedSecret u.email, user := user,
        response := some (Response.redirect "/secrets") }

/-- The function `verify` given to the local `Strategy`. -/
def verify (b : Bcrypt) (d : Db) (username password : String) : CbArgs × Db :=
  if acceptsText username = false then
    -- the SELECT is rejected, db.query throws, the catch logs it
    (CbArgs.notCalled, d.rejected (Query.selectUser username))
  else
    let (rows, d1) := d.selectUser username
    match rows with
    | user :: _ =>
      match b.compare password user.password with
      | Except.error e => (CbArgs.err e, d1)
      | Except.ok true => (CbArgs.user (some user), d1)
      | Except.ok false => (CbArgs.user none, d1)
    | [] => (CbArgs.err "User not found", d1)

/-- The verify callback given to `GoogleStrategy`, with `profile.email`, the
address the provider asserts. -/
def googleVerify (d : Db) (profileEmail : String) : CbArgs × Db :=
  let (rows, d1) := d.selectUser profileEmail
  if rows.length = 0 then
    match d1.insertUser profileEmail "google" false with
    | (Except.error e, d2) => (CbArgs.err e, d2)
    | (Except.ok newRows, d2) => (CbArgs.user newRows.head?, d2)
  else
    (CbArgs.user rows.head?, d1)

/-- What `passport.authenticate(name, \x7b successRedirect, failureRedirect \x7d)`
does with the arguments the verify function gave to its callback: an error
goes to `next`, a missing user is a failure and redirects to
`failureRedirect`, a user is logged in and redirected to `successRedirect`;
while the callback has not been called nothing is sent. -/
def authenticate (successRedirect failureRedirect : String) (res : CbArgs × Db)
    (user : Option Row) : Outcome :=
  match res with
  | (CbArgs.err e, d) => { db := d, user := user, response := some (Response.nextError e) }
  | (CbArgs.user none, d) =>
    { db := d, user := user, response := some (Response.redirect failureRedirect) }
  | (CbArgs.user (some u), d) =>
    { db := d, user := some (deserializeUser (serializeUser u)),
      response := some (Response.redirect successRedirect) }
  | (CbArgs.notCalled, d) => { db := d, user := user, response := none }

/-- The handler of `app.post("/login")`.  The local strategy of passport fails the attempt
without calling `verify` when a credential is missing or empty. -/
def postLogin (b : Bcrypt) (d : Db) (user : Option Row) (username password : String) :
    Outcome :=
  if username = "" ∨ password = "" then
    { db := d, user := user, response := some (Response.redirect "/login") }
  else
    authenticate "/secrets" "/login" (verify b d username password) user

/-- The handler of `app.get("/auth/google/secrets")`, once the provider has returned the
profile. -/
def googleCallback (d : Db) (user : Option Row) (profileEmail : String) : Outcome :=
  authenticate "/secrets" "/login" (googleVerify d profileEmail) user

/-- A `bcrypt` stand-in for evaluating the handlers on concrete inputs: the
digest is the plaintext behind a fixed prefix. -/
def demoBcrypt : Bcrypt where
  hash := fun p _ => Except.ok ("$2b$10$" ++ p)
  compare := fun p h => Except.ok (decide (h = "$2b$10$" ++ p))

/-! ## Lemmas on the table -/

theorem rowsFor_append (rows : Store) (r : Row) (email : String) :
    rowsFor (rows ++ [r]) email
      = rowsFor rows email ++ (if r.email = email then [r] else []) := by
  unfold rowsFor
  rw [List.filter_append]
  by_cases h : r.email = email <;> simp [List.filter, h]

theorem rowsFor_eq_nil_iff (rows : Store) (email : String) :
    rowsFor rows email = [] ↔ ∀ r ∈ rows, r.email ≠ email := by
  unfold rowsFor
  simp [List.filter_eq_nil_iff]

theorem rowsFor_ne_nil_iff (rows : Store) (email : String) :
    rowsFor rows email ≠ [] ↔ ∃ r ∈ rows, r.email = email := by
  rw [Ne, rowsFor_eq_nil_iff]
  push_neg
  rfl

theorem rowsFor_setSecret (rows : Store) (secret : Option String) (email email2 : String) :
    rowsFor (rows.map (fun r => if r.email = email then { r with secret := secret } else r))
        email2
      = (rowsFor rows email2).map
          (fun r => if r.email = email then { r with secret := secret } else r) := by
  unfold rowsFor
  rw [List.filter_map]
  congr 1
  apply List.filter_congr
  intro r _
  by_cases h : r.email = email <;> simp [h]

/-! ## Registration, local login and reading the secret -/

/-- C1 (amended): when no row has email `e`, `e` and `p` are non-empty, `e`
is text the database accepts, hashing `p` gives the digest `h` and `h`
verifies against `p`, `POST /register` appends the single row
`(e, h, NULL)`, binds the session to it and redirects to `/secrets`; the
local verifier then resolves `(e, p)` to that row, `POST /login` binds the
session to it and redirects to `/secrets`, and `GET /secrets` for that
identity renders the placeholder. -/
theorem register_then_login_scenario (b : Bcrypt) (d : Db) (sess sess2 : Option Row)
    (e p h : String)
    (hnew : ∀ r ∈ d.rows, r.email ≠ e)
    (he : e ≠ "") (hp : p ≠ "") (htext : acceptsText e = true)
    (hhash : b.hash p saltRounds = Except.ok h)
    (hver : b.compare p h = Except.ok true) :
    (postRegister b d sess e p).db.rows = d.rows ++ [⟨e, h, none⟩]
    ∧ rowsFor (postRegister b d sess e p).db.rows e = [⟨e, h, none⟩]
    ∧ (postRegister b d sess e p).user = some ⟨e, h, none⟩
    ∧ (postRegister b d sess e p).response = some (Response.redirect "/secrets")
    ∧ (verify b (postRegister b d sess e p).db e p).1 = CbArgs.user (some ⟨e, h, none⟩)
    ∧ (verify b (postRegister b d sess e p).db e p).2.rows = (postRegister b d sess e p).db.rows
    ∧ (postLogin b (postRegister b d sess e p).db sess2 e p).user = some ⟨e, h, none⟩
    ∧ (postLogin b (postRegister b d sess e p).db sess2 e p).response
        = some (Response.redirect "/secrets")
    ∧ (postLogin b (postRegister b d sess e p).db sess2 e p).db.rows
        = (postRegister b d sess e p).db.rows
    ∧ (getSecrets (postLogin b (postRegister b d sess e p).db sess2 e p).db
          (postLogin b (postRegister b d sess e p).db sess2 e p).user).response
        = some (Response.render "secrets.ejs" (some "You should submit a secret")) := by
  have hnil : rowsFor d.rows e = [] := (rowsFor_eq_nil_iff d.rows e).2 hnew
  have hreg : postRegister b d sess e p
      = { db := { rows := d.rows ++ [⟨e, h, none⟩]
                  log := d.log ++ [Query.selectUser e] ++ [Query.insertUser e h true]
                  uniqueEmail := d.uniqueEmail }
          user := some ⟨e, h, none⟩
          response := some (Response.redirect "/secrets") } := by
    simp [postRegister, Db.selectUser, Db.insertUser, hnil, hhash, htext, serializeUser,
      deserializeUser]
  have hsel : rowsFor (d.rows ++ [⟨e, h, none⟩]) e = [⟨e, h, none⟩] := by
    rw [rowsFor_append, hnil]; simp
  have hv : verify b (postRegister b d sess e p).db e p
      = (CbArgs.user (some ⟨e, h, none⟩),
          { rows := d.rows ++ [⟨e, h, none⟩]
            log := d.log ++ [Query.selectUser e] ++ [Query.insertUser e h true]
                    ++ [Query.selectUser e]
            uniqueEmail := d.uniqueEmail }) := by
    rw [hreg]
    simp [verify, Db.selectUser, hsel, hver, htext]
  have hl : postLogin b (postRegister b d sess e p).db sess2 e p
      = { db := { rows := d.rows ++ [⟨e, h, none⟩]
                  log := d.log ++ [Query.selectUser e] ++ [Query.insertUser e h true]
                          ++ [Query.selectUser e]
                  uniqueEmail := d.uniqueEmail }
          user := some ⟨e, h, none⟩
          response := some (Response.redirect "/secrets") } := by
    simp [postLogin, he, hp, hv, authenticate, serializeUser, deserializeUser]
  refine ⟨by rw [hreg], by rw [hreg]; exact hsel, by rw [hreg], by rw [hreg],
    by rw [hv], by rw [hv, hreg], by rw [hl], by rw [hl], by rw [hl, hreg], ?_⟩
  rw [hl]
  simp [getSecrets, Db.selectSecret, hsel, orDefault, placeholder]

/-- Witness for C1 on the scenario of the specification: `alice@example.com`
registers with `pw123` on an empty table. -/
theorem register_then_login_scenario_witness :
    (postRegister demoBcrypt ⟨[], [], true⟩ none "alice@example.com" "pw123").db.rows
        = [⟨"alice@example.com", "$2b$10$pw123", none⟩]
    ∧ (postLogin demoBcrypt
          (postRegister demoBcrypt ⟨[], [], true⟩ none "alice@example.com" "pw123").db
          none "alice@example.com" "pw123").response
        = some (Response.redirect "/secrets") := by
  have key := register_then_login_scenario demoBcrypt ⟨[], [], true⟩ none none
    "alice@example.com" "pw123" "$2b$10$pw123" (by simp) (by decide) (by decide) (by decide)
    rfl (by simp [demoBcrypt])
  exact ⟨key.1, key.2.2.2.2.2.2.2.1⟩

/-- C1 as stated fails at three inputs, each on an empty table with a `bcrypt`
whose hashing succeeds and whose digest verifies.  With the empty password
the row is stored but `POST /login` is refused before `verify` runs and
redirects to `/login`; the same holds with the empty email; with an email
containing U+0000 the `SELECT` of `POST /register` is rejected, no row is
stored and nothing is sent. -/
theorem register_then_login_scenario_fails :
    (demoBcrypt.hash "" saltRounds = Except.ok "$2b$10$"
      ∧ demoBcrypt.compare "" "$2b$10$" = Except.ok true
      ∧ (postRegister demoBcrypt ⟨[], [], true⟩ none "alice@example.com" "").db.rows
          = [⟨"alice@example.com", "$2b$10$", none⟩]
      ∧ (postLogin demoBcrypt
            (postRegister demoBcrypt ⟨[], [], true⟩ none "alice@example.com" "").db
            none "alice@example.com" "").response = some (Response.redirect "/login")
      ∧ (postLogin demoBcrypt
            (postRegister demoBcrypt ⟨[], [], true⟩ none "alice@example.com" "").db
            none "alice@example.com" "").user = none)
    ∧ ((postRegister demoBcrypt ⟨[], [], true⟩ none "" "pw123").db.rows
          = [⟨"", "$2b$10$pw123", none⟩]
      ∧ (postLogin demoBcrypt (postRegister demoBcrypt ⟨[], [], true⟩ none "" "pw123").db
            none "" "pw123").response = some (Response.redirect "/login"))
    ∧ ((postRegister demoBcrypt ⟨[], [], true⟩ none "x\x00y" "pw123").db.rows = []
      ∧ (postRegister demoBcrypt ⟨[], [], true⟩ none "x\x00y" "pw123").response = none) :=
  ⟨⟨rfl, rfl, by decide, by decide, by decide⟩, by decide, by decide⟩

/-! ## The external-provider resolver and the table -/

/-- C2: on a table with at most one row per email, the Google resolver
leaves exactly one row with the profile's email: the table is unchanged when
a row for it was stored, it gains the single row `(e, "google", NULL)` at the
end when none was, and the rows of every other email are the same. -/
theorem google_resolver_store (d : Db) (e : String)
    (huniq : ∀ e2, (rowsFor d.rows e2).length ≤ 1) :
    (rowsFor (googleVerify d e).2.rows e).length = 1
    ∧ ((∃ r ∈ d.rows, r.email = e) → (googleVerify d e).2.rows = d.rows)
    ∧ ((∀ r ∈ d.rows, r.email ≠ e) →
        (googleVerify d e).2.rows = d.rows ++ [⟨e, "google", none⟩])
    ∧ (∀ e2, e2 ≠ e → rowsFor (googleVerify d e).2.rows e2 = rowsFor d.rows e2) := by
  by_cases hnil : rowsFor d.rows e = []
  · have hrows : (googleVerify d e).2.rows = d.rows ++ [⟨e, "google", none⟩] := by
      simp [googleVerify, Db.selectUser, Db.insertUser, hnil]
    refine ⟨?_, ?_, fun _ => hrows, ?_⟩
    · rw [hrows, rowsFor_append, hnil]; simp
    · intro hex
      exact absurd hnil ((rowsFor_ne_nil_iff d.rows e).2 hex)
    · intro e2 he2
      rw [hrows, rowsFor_append]
      simp [Ne.symm he2]
  · have hrows : (googleVerify d e).2.rows = d.rows := by
      simp [googleVerify, Db.selectUser, hnil]
    refine ⟨?_, fun _ => hrows, ?_, ?_⟩
    · rw [hrows]
      have h1 := huniq e
      have h2 : 0 < (rowsFor d.rows e).length := List.length_pos.2 hnil
      omega
    · intro hall
      exact absurd ((rowsFor_eq_nil_iff d.rows e).2 hall) hnil
    · intro e2 _
      rw [hrows]

/-- Witness for C2: a table holding a locally registered `alice`, and the
profile email of `alice`. -/
theorem google_resolver_store_witness :
    (googleVerify ⟨[⟨"alice@example.com", "$2b$10$pw123", none⟩], [], true⟩
        "alice@example.com").2.rows
      = [⟨"alice@example.com", "$2b$10$pw123", none⟩] :=
  (google_resolver_store ⟨[⟨"alice@example.com", "$2b$10$pw123", none⟩], [], true⟩
      "alice@example.com"
      (by
        intro e2
        by_cases h : "alice@example.com" = e2 <;> simp [rowsFor, List.filter, h])).2.1
    ⟨_, List.mem_singleton.2 rfl, rfl⟩

/-! ## Registering an email that is already stored -/

/-- C4: when a row with email `e` is stored, `POST /register` with `e` leaves
the table exactly as it was. -/
theorem register_existing_store_unchanged (b : Bcrypt) (d : Db) (sess : Option Row)
    (e p : String) (hex : ∃ r ∈ d.rows, r.email = e) :
    (postRegister b d sess e p).db.rows = d.rows := by
  have hne : rowsFor d.rows e ≠ [] := (rowsFor_ne_nil_iff d.rows e).2 hex
  have hpos : 0 < (rowsFor d.rows e).length := List.length_pos.2 hne
  by_cases htext : acceptsText e = false
  · simp [postRegister, Db.rejected, htext]
  · simp [postRegister, Db.selectUser, hpos, htext]

/-- Witness for C4: `alice` registers a second time with another password. -/
theorem register_existing_store_unchanged_witness :
    (postRegister demoBcrypt ⟨[⟨"alice@example.com", "$2b$10$pw123", none⟩], [], true⟩ none
        "alice@example.com" "other").db.rows
      = [⟨"alice@example.com", "$2b$10$pw123", none⟩] :=
  register_existing_store_unchanged demoBcrypt
    ⟨[⟨"alice@example.com", "$2b$10$pw123", none⟩], [], true⟩ none
    "alice@example.com" "other" ⟨_, List.mem_singleton.2 rfl, rfl⟩

/-! ## The gate on reading the secret -/

/-- C8: an unauthenticated `GET /secrets` redirects to `/login` and issues no
statement: the database, its log of statements included, is what it was. -/
theorem get_secrets_unauthenticated (d : Db) (user : Option Row)
    (hanon : isAuthenticated user = false) :
    (getSecrets d user).response = some (Response.redirect "/login")
    ∧ (getSecrets d user).db.log = d.log
    ∧ (getSecrets d user).db = d := by
  cases user with
  | none => exact ⟨rfl, rfl, rfl⟩
  | some u => simp [isAuthenticated] at hanon

/-- Witness for C8: an anonymous request against a table holding `alice`. -/
theorem get_secrets_unauthenticated_witness :
    isAuthenticated none = false
    ∧ (getSecrets ⟨[⟨"alice@example.com", "$2b$10$pw123", some "hidden"⟩], [], true⟩
          none).response = some (Response.redirect "/login")
    ∧ (getSecrets ⟨[⟨"alice@example.com", "$2b$10$pw123", some "hidden"⟩], [], true⟩
          none).db.log = [] :=
  ⟨rfl,
    (get_secrets_unauthenticated
      ⟨[⟨"alice@example.com", "$2b$10$pw123", some "hidden"⟩], [], true⟩ none rfl).1,
    (get_secrets_unauthenticated
      ⟨[⟨"alice@example.com", "$2b$10$pw123", some "hidden"⟩], [], true⟩ none rfl).2.1⟩

/-! ## Submitting a secret -/

/-- C9 (amended): with exactly one row for `e` stored, a session bound to an
identity with email `e` and a non-empty `s` that is text the database
accepts, `POST /submit` with `s` redirects to `/secrets` and the
`GET /secrets` that follows renders `s` itself. -/
theorem submit_then_read (d : Db) (u : Row) (e s : String)
    (hone : (rowsFor d.rows e).length = 1) (hu : u.email = e) (hs : s ≠ "")
    (htext : acceptsText s = true) :
    (postSubmit d (some u) (some s)).response = some (Response.redirect "/secrets")
    ∧ (getSecrets (postSubmit d (some u) (some s)).db
          (postSubmit d (some u) (some s)).user).response
        = some (Response.render "secrets.ejs" (some s)) := by
  subst hu
  obtain ⟨r, hr⟩ := List.length_eq_one.1 hone
  have hmem : r ∈ rowsFor d.rows u.email := by rw [hr]; exact List.mem_singleton.2 rfl
  have hre : r.email = u.email := by
    unfold rowsFor at hmem
    simpa using (List.mem_filter.1 hmem).2
  have hsub : postSubmit d (some u) (some s)
      = { db := d.updateSecret (some s) u.email, user := some u,
          response := some (Response.redirect "/secrets") } := by
    simp [postSubmit, htext]
  rw [hsub]
  refine ⟨rfl, ?_⟩
  simp [getSecrets, Db.selectSecret, Db.updateSecret, rowsFor_setSecret, hr, hre,
    orDefault, hs]

/-- Witness for C9: `alice` submits `hidden` and reads it back. -/
theorem submit_then_read_witness :
    (getSecrets
        (postSubmit ⟨[⟨"alice@example.com", "$2b$10$pw123", some "old"⟩], [], true⟩
          (some ⟨"alice@example.com", "$2b$10$pw123", none⟩) (some "hidden")).db
        (some ⟨"alice@example.com", "$2b$10$pw123", none⟩)).response
      = some (Response.render "secrets.ejs" (some "hidden")) :=
  (submit_then_read ⟨[⟨"alice@example.com", "$2b$10$pw123", some "old"⟩], [], true⟩
    ⟨"alice@example.com", "$2b$10$pw123", none⟩ "alice@example.com" "hidden"
    (by decide) rfl (by decide) (by decide)).2

/-- C9 as stated fails for the non-empty secret made of `a`, U+0000 and `b`:
the `UPDATE` is rejected, `POST /submit` sends nothing and stores nothing,
and the `GET /secrets` that follows renders the earlier secret. -/
theorem submit_then_read_fails :
    (rowsFor [⟨"alice@example.com", "$2b$10$pw123", some "old"⟩] "alice@example.com").length = 1
    ∧ "a\x00b" ≠ ""
    ∧ (postSubmit ⟨[⟨"alice@example.com", "$2b$10$pw123", some "old"⟩], [], true⟩
          (some ⟨"alice@example.com", "$2b$10$pw123", none⟩) (some "a\x00b")).response = none
    ∧ (postSubmit ⟨[⟨"alice@example.com", "$2b$10$pw123", some "old"⟩], [], true⟩
          (some ⟨"alice@example.com", "$2b$10$pw123", none⟩) (some "a\x00b")).db.rows
        = [⟨"alice@example.com", "$2b$10$pw123", some "old"⟩]
    ∧ (getSecrets
          (postSubmit ⟨[⟨"alice@example.com", "$2b$10$pw123", some "old"⟩], [], true⟩
            (some ⟨"alice@example.com", "$2b$10$pw123", none⟩) (some "a\x00b")).db
          (some ⟨"alice@example.com", "$2b$10$pw123", none⟩)).response
        = some (Response.render "secrets.ejs" (some "old")) := by
  decide

/-- C10: `POST /submit` leaves the table as it was when `req.user` is absent;
when the session is bound to `u`, the table keeps its rows in place, each with
the email and password it had, and a row whose email is not that of `u` is
the same row. -/
theorem submit_frame (d : Db) (submitted : Option String) :
    (postSubmit d none submitted).db = d
    ∧ ∀ u : Row,
        List.Forall₂
          (fun before after =>
            after.email = before.email ∧ after.password = before.password
            ∧ (before.email ≠ u.email → after = before))
          d.rows (postSubmit d (some u) submitted).db.rows := by
  refine ⟨rfl, fun u => ?_⟩
  by_cases htext : (submitted.all acceptsText) = false
  · simp only [postSubmit, Db.rejected, htext, if_true]
    rw [List.forall₂_same]
    intro r _
    simp
  · rw [Bool.not_eq_false] at htext
    simp only [postSubmit, Db.updateSecret, htext]
    rw [if_neg (by decide), List.forall₂_map_right_iff, List.forall₂_same]
    intro r _
    by_cases h : r.email = u.email <;> simp [h]

/-- Witness for C10: `alice` submits on a table that also holds `bob`; the
row of `bob` is untouched. -/
theorem submit_frame_witness :
    (postSubmit
        ⟨[⟨"alice@example.com", "a", none⟩, ⟨"bob@example.com", "b", some "mine"⟩], [], true⟩
        (some ⟨"alice@example.com", "a", none⟩) (some "hidden")).db.rows
      = [⟨"alice@example.com", "a", some "hidden"⟩, ⟨"bob@example.com", "b", some "mine"⟩]
    ∧ List.Forall₂
        (fun before after =>
          after.email = before.email ∧ after.password = before.password
          ∧ (before.email ≠ "alice@example.com" → after = before))
        [⟨"alice@example.com", "a", none⟩, ⟨"bob@example.com", "b", some "mine"⟩]
        (postSubmit
          ⟨[⟨"alice@example.com", "a", none⟩, ⟨"bob@example.com", "b", some "mine"⟩], [], true⟩
          (some ⟨"alice@example.com", "a", none⟩) (some "hidden")).db.rows :=
  ⟨by decide,
    (submit_frame
      ⟨[⟨"alice@example.com", "a", none⟩, ⟨"bob@example.com", "b", some "mine"⟩], [], true⟩
      (some "hidden")).2 ⟨"alice@example.com", "a", none⟩⟩

/-! ## Evaluations where the handlers depart from the contract -/

/-- C3: for an email with no row the Google resolver inserts the row but
calls `cb(null, undefined)`: the `INSERT` has no `RETURNING` clause, so
`newUser.rows[0]` is absent, passport counts the attempt as failed and the
session stays unbound. -/
theorem google_new_email_returns_no_identity :
    (googleVerify ⟨[], [], true⟩ "carol@example.com").1 = CbArgs.user none
    ∧ (googleVerify ⟨[], [], true⟩ "carol@example.com").2.rows
        = [⟨"carol@example.com", "google", none⟩]
    ∧ (googleCallback ⟨[], [], true⟩ none "carol@example.com").user = none
    ∧ (googleCallback ⟨[], [], true⟩ none "carol@example.com").response
        = some (Response.redirect "/login") := by
  decide

/-- C5: registering a stored email sends no response at all: the handler
calls `req.redirect`, which the request object does not have, and the
`TypeError` is swallowed by the `catch`.  The session is left unbound. -/
theorem register_existing_sends_no_response :
    (postRegister demoBcrypt ⟨[⟨"alice@example.com", "$2b$10$pw123", none⟩], [], true⟩ none
        "alice@example.com" "pw123").response = none
    ∧ (postRegister demoBcrypt ⟨[⟨"alice@example.com", "$2b$10$pw123", none⟩], [], true⟩ none
        "alice@example.com" "pw123").response ≠ some (Response.redirect "/login")
    ∧ (postRegister demoBcrypt ⟨[⟨"alice@example.com", "$2b$10$pw123", none⟩], [], true⟩ none
        "alice@example.com" "pw123").user = none := by
  decide

/-- C6: a login for an unknown email is reported to passport as an error,
`cb("User not found")`, and ends in `next(err)`; a wrong password for a stored
email is reported as a failure and redirects to `/login`. -/
theorem login_unknown_user_differs_from_bad_password :
    (verify demoBcrypt ⟨[], [], true⟩ "bob@example.com" "pw").1 = CbArgs.err "User not found"
    ∧ (postLogin demoBcrypt ⟨[], [], true⟩ none "bob@example.com" "pw").response
        = some (Response.nextError "User not found")
    ∧ (verify demoBcrypt ⟨[⟨"bob@example.com", "$2b$10$right", none⟩], [], true⟩
          "bob@example.com" "pw").1 = CbArgs.user none
    ∧ (postLogin demoBcrypt ⟨[⟨"bob@example.com", "$2b$10$right", none⟩], [], true⟩ none
          "bob@example.com" "pw").response = some (Response.redirect "/login") := by
  decide

/-- C7: `POST /submit` without a bound session sends no response: there is no
`isAuthenticated` check, `req.user.email` throws and the `catch` logs it;
`GET /secrets` and `GET /submit` redirect the same request to `/login`. -/
theorem submit_unauthenticated_sends_no_response :
    (postSubmit ⟨[], [], true⟩ none (some "hidden")).response = none
    ∧ (getSecrets ⟨[], [], true⟩ none).response = some (Response.redirect "/login")
    ∧ (getSubmit ⟨[], [], true⟩ none).response = some (Response.redirect "/login") := by
  decide

end SecretApp
